import Mathlib

/-!
Verification of the AI-order extraction pipeline of the `backendpuntogafas`
repository (a Python service turning retail optical-shop conversations into
priced order drafts).

The development shallowly embeds the pure decision logic of
`app/tools/lens_catalog.py`, `app/tools/products.py`,
`app/agents/catalog_matcher.py`, `app/agents/conversation_analyzer.py`
(`_detect_venta_directa`), `app/agents/order_builder.py` and
`app/agents/pipeline.py`.

Modelling conventions:
* Python `float` is embedded as `ℚ` (the values manipulated by this code are
  exact decimal amounts and diopter steps; no claim depends on IEEE rounding).
* Python `str | None` fields are `Option String`; Python truthiness of such a
  field (`if x:`) is `strTruthy` (`None` and `""` are falsy).  Truthiness of
  optional numbers (`None` and `0` falsy) is `qTruthy`.
* Supabase tables are embedded as explicit lists of typed rows
  (`LensRow`, `ProdRow`); the builder-style query of the Python client
  becomes list filtering.  A `dict` row lookup `row["id"]` on a row whose
  `id` is absent/null raises `KeyError` in Python; row accesses that can
  raise are embedded in the `Except String` monad.
* The external LLM calls (vision extraction, conversation analysis) and the
  possibility of any stage raising are modelled by `StageOracles`: each stage
  of `run_pipeline` is an `Except String`-valued oracle, the `.error` case
  standing for a raised exception with the given message.
* Wall-clock reads (`time.time()`, `datetime.now().isoformat()`) are passed
  explicitly through a `Clock` value.
* `models/extraction.py` in the repository is a stale revision missing fields
  and classes the agents construct and read (`VisionOutput.remissions`,
  `ConversationOutput.payment_mentions`, `suggested_order_type`,
  `class PaymentMention`, the extra `FinalOrderResult` fields).  Those record
  shapes are reconstructed from their construction and use sites in the
  agents, which fully determine them.
-/

set_option maxRecDepth 4000

namespace PuntoGafas

/-- Python substring test `needle in hay`. -/
def strContains (hay needle : String) : Bool := decide (needle.data <:+: hay.data)

/-- Python `str.lower()` (ASCII letters; the synonym tables and the tokens the
claims exercise are ASCII). -/
def toLowerStr (s : String) : String := String.mk (s.data.map Char.toLower)

/-- Python `str.upper()` (ASCII letters). -/
def toUpperStr (s : String) : String := String.mk (s.data.map Char.toUpper)

/-- Python `str.strip()`. -/
def trimStr (s : String) : String :=
  String.mk (((s.data.dropWhile Char.isWhitespace).reverse.dropWhile Char.isWhitespace).reverse)

/-- Python `str.strip("%")`. -/
def stripPercent (s : String) : String :=
  String.mk (((s.data.dropWhile (· == '%')).reverse.dropWhile (· == '%')).reverse)

/-- Splits a character stream into maximal non-whitespace runs
(Python `str.split()` with no argument); `acc` is the current run, reversed. -/
def tokensAux : List Char → List Char → List (List Char)
  | [], acc => if acc.isEmpty then [] else [acc.reverse]
  | c :: cs, acc =>
    if c.isWhitespace then
      (if acc.isEmpty then tokensAux cs [] else acc.reverse :: tokensAux cs [])
    else tokensAux cs (c :: acc)

/-- Python `str.split()`. -/
def splitTokens (s : String) : List String := (tokensAux s.data []).map String.mk

/-- Python truthiness of an optional string: `None` and `""` are falsy. -/
def strTruthy : Option String → Bool
  | none => false
  | some s => !s.data.isEmpty

/-- Python truthiness of an optional number: `None` and `0` are falsy. -/
def qTruthy : Option ℚ → Bool
  | none => false
  | some q => decide (q ≠ 0)

/-- Python `x or d` for an optional string `x` and a string default. -/
def pyOrStr (x : Option String) (d : String) : String :=
  match x with
  | some s => if s.data.isEmpty then d else s
  | none => d

/-- Python `x or y` for two optional numbers (falsy `x`, i.e. `None` or `0`,
yields `y` unchanged). -/
def pyOrQ (x y : Option ℚ) : Option ℚ := if qTruthy x then x else y

/-- Python `n or d` for integers (`0` is falsy). -/
def pyOrInt (n d : ℤ) : ℤ := if n = 0 then d else n

/-- Python `dict.get(key, default)` where our model conflates an absent key
with a present null: a `none` field falls back to the default. -/
def getOr (x d : Option String) : Option String :=
  match x with
  | some s => some s
  | none => d

/-- Python `f"{x}"` interpolation of an optional string (`None` renders as
the literal text `None`). -/
def pyStr : Option String → String
  | none => "None"
  | some s => s

/-- Python `int(x)` on a float: truncation toward zero (T-division of the
reduced numerator by the denominator). -/
def ratTrunc (q : ℚ) : ℤ := Int.tdiv q.num (q.den : ℤ)

/-- Rounding to the nearest integer, `⌊q + 1/2⌋`, written with floored
integer division so that it evaluates in the kernel. -/
def roundRat (q : ℚ) : ℤ := Int.fdiv (2 * q.num + (q.den : ℤ)) (2 * (q.den : ℤ))

/-- Stable insertion of `x` into `l`: `x` goes in front of the first element
it compares `le` to, so equal keys keep their original order. -/
def insertLe (le : α → α → Bool) (x : α) : List α → List α
  | [] => [x]
  | y :: ys => if le x y then x :: y :: ys else y :: insertLe le x ys

/-- Stable sort (the embedding of Python's stable `list.sort`), by
structural recursion so that concrete calls evaluate in the kernel. -/
def stableSortBy (le : α → α → Bool) : List α → List α
  | [] => []
  | x :: xs => insertLe le x (stableSortBy le xs)

/-- The decimal digit character for `n < 10`. -/
def digitChar (n : ℕ) : Char := Char.ofNat (48 + n)

/-- Decimal digits of `n`, most significant first; `fuel` bounds the digit
count (structural recursion so that concrete calls evaluate in the kernel). -/
def natDigitsGo : ℕ → ℕ → List Char
  | 0, _ => []
  | f + 1, n => if n < 10 then [digitChar n] else natDigitsGo f (n / 10) ++ [digitChar (n % 10)]

/-- Decimal rendering of a natural number. -/
def natDigits (n : ℕ) : List Char := natDigitsGo (n + 1) n

/-- Inserts a thousands separator before every digit whose
(least-significant-first) index is a positive multiple of three. -/
def commaGroupGo : List Char → ℕ → List Char
  | [], _ => []
  | c :: cs, k =>
    if 0 < k ∧ k % 3 = 0 then ',' :: c :: commaGroupGo cs (k + 1)
    else c :: commaGroupGo cs (k + 1)

/-- Inserts a thousands separator every three digits; digits arrive least
significant first. -/
def commaGroup (cs : List Char) : List Char := commaGroupGo cs 0

/-- Python `f"{q:,.0f}"`: the amount rounded to an integer and
comma-grouped.  (Python breaks rounding ties to even; ties do not occur in
this development.) -/
def moneyStr (q : ℚ) : String :=
  let n := roundRat q
  (if n < 0 then "-" else "") ++ String.mk ((commaGroup (natDigits n.natAbs).reverse).reverse)

/-! ## Data model (`app/models/…`) -/

/-- `EyeRx` (models/prescription.py): single-eye refraction values. -/
structure EyeRx where
  sphere : Option ℚ := none
  cylinder : Option ℚ := none
  axis : Option ℤ := none
  add : Option ℚ := none
deriving DecidableEq

/-- `PupilDistance` (models/prescription.py). -/
structure PupilDistance where
  right : Option ℚ := none
  left : Option ℚ := none
deriving DecidableEq

/-- `RxData` (models/prescription.py). -/
structure RxData where
  od : Option EyeRx := none
  os : Option EyeRx := none
  pd : Option PupilDistance := none
  notes : Option String := none
deriving DecidableEq

/-- `PrescriptionFound` (models/prescription.py). -/
structure PrescriptionFound where
  image_url : Option String := none
  rx_data : Option RxData := none
  confidence : ℚ := 0
  warnings : List String := []
  notes : Option String := none
deriving DecidableEq

/-- `NonPrescriptionImage` (models/prescription.py). -/
structure NonPrescriptionImage where
  image_url : Option String := none
  description : Option String := none
deriving DecidableEq

/-- `AiExtractionMetadata` (models/prescription.py). -/
structure AiExtractionMetadata where
  source : String := "ai_extracted"
  confidence : ℚ := 0
  model : String := "gemini-2.0-flash"
  warnings : List String := []
  extracted_at : Option String := none
deriving DecidableEq

/-- `WarrantyInfo` (models/prescription.py). -/
structure WarrantyInfo where
  frame : Option String := none
  lens : Option String := none
  conditions : List String := []
deriving DecidableEq

/-- `RemissionData` (models/prescription.py): data extracted from a signed
remission document.  `total_amount` is reference only. -/
structure RemissionData where
  image_url : Option String := none
  lens_description : Option String := none
  warranty : Option WarrantyInfo := none
  delivery_days : Option ℤ := none
  payment_info : Option String := none
  payment_method : Option String := none
  payment_type : Option String := none
  payment_amount : Option ℚ := none
  has_proof : Bool := false
  observations : Option String := none
  total_amount : Option ℚ := none
  remission_number : Option String := none
  confidence : ℚ := 0
deriving DecidableEq

/-- `VisualAcuity` (models/prescription.py). -/
structure VisualAcuity where
  vp_od : Option String := none
  vp_os : Option String := none
  vl_od : Option String := none
  vl_os : Option String := none
deriving DecidableEq

/-- `ClinicalHistoryData` (models/prescription.py). -/
structure ClinicalHistoryData where
  image_url : Option String := none
  diagnosis_od : Option String := none
  diagnosis_os : Option String := none
  visual_acuity : Option VisualAcuity := none
  next_control : Option String := none
  professional_name : Option String := none
  confidence : ℚ := 0
deriving DecidableEq

/-- `FrameData` (models/prescription.py). -/
structure FrameData where
  image_url : Option String := none
  reference_code : Option String := none
  description : Option String := none
  confidence : ℚ := 0
deriving DecidableEq

/-- `PaymentSuggestion` (models/prescription.py): merged payment data;
`amount_reference` is informational only. -/
structure PaymentSuggestion where
  method : Option String := none
  type : String := "total"
  amount_reference : Option ℚ := none
  has_proof : Bool := false
  source : String := "remission"
  proof_url : Option String := none
deriving DecidableEq

/-- `ImageClassification` (models/prescription.py). -/
structure ImageClassification where
  url : Option String := none
  type : String := "other"
  confidence : ℚ := 0
deriving DecidableEq

/-- `MessagePayload` (models/job.py). -/
structure MessagePayload where
  role : Option String := none
  content : Option String := none
  type : Option String := some "text"
  attachment_url : Option String := none
  created_at : Option String := none
deriving DecidableEq

/-- `InternalNote` (models/job.py): advisor note, optionally carrying a
`sale_tag` (`"montura"`, `"estuche"`, or absent). -/
structure InternalNote where
  content : Option String := none
  type : Option String := some "text"
  attachment_url : Option String := none
  sale_tag : Option String := none
  created_at : Option String := none
deriving DecidableEq

/-- `CustomerPayload` (models/job.py). -/
structure CustomerPayload where
  id : Option String := none
  name : Option String := none
  phone : Option String := none
  email : Option String := none
  document_id : Option String := none
deriving DecidableEq

/-- `JobPayload` (models/job.py): the JSONB payload of an AI order job. -/
structure JobPayload where
  conversation_id : Option String := none
  customer : Option CustomerPayload := none
  sede_id : Option String := none
  messages : List MessagePayload := []
  internal_notes : List InternalNote := []
  media_urls : List String := []
  instructions : Option String := none
  incomplete : Bool := false
deriving DecidableEq

/-- `AIOrderJob` (models/job.py): one row of `ai_order_jobs` (the fields the
pipeline reads). -/
structure AIOrderJob where
  id : String
  conversation_id : String
  customer_id : String
  sede_id : String
  requested_by : String
  status : String := "pending"
  payload : JobPayload := {}
deriving DecidableEq

/-- `ItemRequested` (models/extraction.py): one normalized purchase intent. -/
structure ItemRequested where
  type : Option String := none
  description : Option String := none
  category : Option String := none
  material_hint : Option String := none
  treatment_hint : Option String := none
  is_digital : Option Bool := none
  brand_hint : Option String := none
  model_hint : Option String := none
  quantity : ℤ := 1
  notes : Option String := none
deriving DecidableEq

/-- `CustomerUpdates` (models/extraction.py). -/
structure CustomerUpdates where
  email : Option String := none
  document_id : Option String := none
  city : Option String := none
  phone : Option String := none
  address : Option String := none
deriving DecidableEq

/-- `PaymentMention`: one candidate payment signal from the conversation.
The class is absent from the stale `models/extraction.py`; its fields are
reconstructed from its construction site
(`conversation_analyzer._parse_conversation_result`) and its use in
`order_builder._build_payment_suggestion`, matching §3 of the spec. -/
structure PaymentMention where
  method : Option String := none
  type : Option String := none
  amount : Option ℚ := none
  has_proof : Bool := false
  proof_url : Option String := none
  source : String := "conversation"
  raw_text : Option String := none
deriving DecidableEq

/-- `VisionOutput`: output of Agent 1.  The stale `models/extraction.py`
lacks every field except `prescriptions_found`, `non_prescription_images`
and `error`; the rest mirror `run_vision_extractor`'s return statement and
their reads in `order_builder`/`pipeline`. -/
structure VisionOutput where
  prescriptions_found : List PrescriptionFound := []
  non_prescription_images : List NonPrescriptionImage := []
  remissions : List RemissionData := []
  clinical_histories : List ClinicalHistoryData := []
  frames : List FrameData := []
  image_classifications : List ImageClassification := []
  error : Option String := none
deriving DecidableEq

/-- `ConversationOutput`: output of Agent 2 (with the `payment_mentions` and
`suggested_order_type` fields the analyzer writes, absent from the stale
models file). -/
structure ConversationOutput where
  items_requested : List ItemRequested := []
  special_instructions : Option String := none
  urgency : String := "desconocida"
  promised_date_hint : Option String := none
  customer_updates : Option CustomerUpdates := none
  payment_mentions : List PaymentMention := []
  suggested_order_type : Option String := none
  warnings : List String := []
  error : Option String := none
deriving DecidableEq

/-- `AlternativeMatch` (models/extraction.py). -/
structure AlternativeMatch where
  lens_catalog_id : Option String := none
  product_id : Option String := none
  description : Option String := none
  price : ℚ := 0
deriving DecidableEq

/-- `MatchedItem` (models/extraction.py): one `ItemRequested` bound (or not)
to a catalog candidate. -/
structure MatchedItem where
  type : Option String := none
  lens_catalog_id : Option String := none
  lab_id : Option String := none
  product_id : Option String := none
  description : Option String := none
  unit_price : ℚ := 0
  lab_cost : Option ℚ := none
  quantity : ℤ := 1
  confidence : ℚ := 0
  needs_manual_selection : Bool := false
  alternatives : List AlternativeMatch := []
  notes : Option String := none
deriving DecidableEq

/-- `CatalogOutput` (models/extraction.py): output of Agent 3. -/
structure CatalogOutput where
  matched_items : List MatchedItem := []
  warnings : List String := []
  suggested_lab_id : Option String := none
  error : Option String := none
deriving DecidableEq

/-- `OrderDraftHeader` (models/order_draft.py). -/
structure OrderDraftHeader where
  customer_id : Option String := none
  sede_id : Option String := none
  seller_id : Option String := none
  status : String := "borrador"
  total_amount : ℚ := 0
  balance_due : ℚ := 0
  payment_status : String := "pendiente"
  lab_id : Option String := none
  promised_date : Option String := none
deriving DecidableEq

/-- `OrderDraftItem` (models/order_draft.py). -/
structure OrderDraftItem where
  description : Option String := none
  quantity : ℤ := 1
  unit_price : ℚ := 0
  subtotal : ℚ := 0
  lens_catalog_id : Option String := none
  lens_lab_cost : Option ℚ := none
  product_id : Option String := none
  prescription_id : Option String := none
  needs_manual_selection : Bool := false
deriving DecidableEq

/-- `PrescriptionInsert` (models/order_draft.py). -/
structure PrescriptionInsert where
  customer_id : Option String := none
  rx_data : Option RxData := none
  original_image_url : Option String := none
  ai_extraction_metadata : Option AiExtractionMetadata := none
deriving DecidableEq

/-- `FinalOrderResult` (models/order_draft.py plus the extra fields
`run_order_builder` passes: `remission`, `clinical_history`, `frames`,
`image_classifications`, `payment_suggestion`).  `agent_errors` is the
insertion-ordered error map, embedded as an association list. -/
structure FinalOrderResult where
  order_draft : OrderDraftHeader := {}
  items : List OrderDraftItem := []
  prescription : Option PrescriptionInsert := none
  remission : Option RemissionData := none
  clinical_history : Option ClinicalHistoryData := none
  frames : List FrameData := []
  image_classifications : List ImageClassification := []
  payment_suggestion : Option PaymentSuggestion := none
  customer_updates : Option CustomerUpdates := none
  completeness : String := "minimo"
  warnings : List String := []
  needs_manual_review : Bool := true
  processing_time_ms : ℤ := 0
  agent_errors : List (String × String) := []
deriving DecidableEq

/-! ## Catalog search (`app/tools/lens_catalog.py`, `app/tools/products.py`) -/

/-- One row of the `lens_catalog` table (columns read by the search). -/
structure LensRow where
  id : Option String := none
  lab_id : Option String := none
  category : Option String := none
  lens_type : Option String := none
  material : Option String := none
  treatment : Option String := none
  is_digital : Option Bool := none
  active : Bool := true
  sphere_min : Option ℚ := none
  sphere_max : Option ℚ := none
  cylinder_min : Option ℚ := none
  cylinder_max : Option ℚ := none
  add_min : Option ℚ := none
  add_max : Option ℚ := none
  retail_price : Option ℚ := none
  lab_cost : Option ℚ := none
deriving DecidableEq

/-- The keyword arguments of `search_lens_catalog`. -/
structure LensQuery where
  category : Option String := none
  material_hint : Option String := none
  treatment_hint : Option String := none
  is_digital : Option Bool := none
  sphere : Option ℚ := none
  cylinder : Option ℚ := none
  add_power : Option ℚ := none
deriving DecidableEq

/-- `MATERIAL_SYNONYMS` (lens_catalog.py): canonical material → accepted
surface forms. -/
def MATERIAL_SYNONYMS : List (String × List String) :=
  [("policarbonato", ["poly", "poli", "policarbonato", "airwear"]),
   ("cr", ["cr", "cr-39", "cr39", "resina"]),
   ("trivex", ["trivex"]),
   ("cristal", ["cristal", "glass", "vidrio"]),
   ("hi-index", ["hi-index", "alto indice", "1.67", "1.74"])]

/-- `TREATMENT_SYNONYMS` (lens_catalog.py). -/
def TREATMENT_SYNONYMS : List (String × List String) :=
  [("transitions", ["transitions", "fotocromático", "fotocromatico", "fotosensible", "photochromic"]),
   ("blue block", ["blue block", "blue", "blue/verde", "blue uv", "blue cut", "blue light"]),
   ("crizal", ["crizal", "crizal easy", "crizal easy pro", "crizal sapphire", "crizal prevencia"]),
   ("antireflejo", ["antireflejo", "ar", "anti reflejo", "anti-reflejo"]),
   ("verde", ["verde", "green"])]

/-- `_normalize_material`: map a user hint to a canonical group key (first
table entry whose synonym list contains the lowered hint), falling back to
the lowered hint itself; falsy hints give `None`. -/
def normalize_material (hint : Option String) : Option String :=
  match hint with
  | none => none
  | some h =>
    if h.data.isEmpty then none
    else
      let hl := toLowerStr (trimStr h)
      match MATERIAL_SYNONYMS.find? (fun p => p.2.contains hl) with
      | some p => some p.1
      | none => some hl

/-- Inner loop of `_normalize_treatment`: per canonical entry, first an exact
membership test, then bidirectional substring matching against each synonym. -/
def normalizeTreatmentGo (hl : String) : List (String × List String) → Option String
  | [] => none
  | (canon, syns) :: rest =>
    if syns.contains hl then some canon
    else if syns.any (fun syn => strContains hl syn || strContains syn hl) then some canon
    else normalizeTreatmentGo hl rest

/-- `_normalize_treatment`. -/
def normalize_treatment (hint : Option String) : Option String :=
  match hint with
  | none => none
  | some h =>
    if h.data.isEmpty then none
    else
      let hl := toLowerStr (trimStr h)
      match normalizeTreatmentGo hl TREATMENT_SYNONYMS with
      | some canon => some canon
      | none => some hl

/-- `_material_patterns`: expand a canonical material to ILIKE patterns. -/
def material_patterns (canonical : Option String) : List String :=
  match canonical with
  | none => []
  | some c =>
    if c.data.isEmpty then []
    else
      let syns := match MATERIAL_SYNONYMS.find? (fun p => p.1 == c) with
        | some p => p.2
        | none => [c]
      syns.map (fun s => "%" ++ s ++ "%")

/-- `_treatment_patterns`. -/
def treatment_patterns (canonical : Option String) : List String :=
  match canonical with
  | none => []
  | some c =>
    if c.data.isEmpty then []
    else
      let syns := match TREATMENT_SYNONYMS.find? (fun p => p.1 == c) with
        | some p => p.2
        | none => [c]
      syns.map (fun s => "%" ++ s ++ "%")

/-- `any(p.strip("%") in combined for p in patterns)`. -/
def fuzzyKeep (patterns : List String) (combined : String) : Bool :=
  patterns.any (fun p => strContains combined (stripPercent p))

/-- The Supabase query prefix of `search_lens_catalog`:
`eq("active", True)`, exact category (lowered) when truthy, exact
`is_digital` when not `None`. -/
def lensBaseRows (q : LensQuery) (catalog : List LensRow) : List LensRow :=
  let rows := catalog.filter (·.active)
  let rows := match q.category with
    | some c => if c.data.isEmpty then rows else rows.filter (fun r => r.category == some (toLowerStr c))
    | none => rows
  match q.is_digital with
  | some d => rows.filter (fun r => r.is_digital == some d)
  | none => rows

/-- The `material`/`lens_type` text a lens row is fuzzily matched against. -/
def lensMatCombined (r : LensRow) : String :=
  toLowerStr (r.material.getD "") ++ " " ++ toLowerStr (r.lens_type.getD "")

/-- The `treatment`/`lens_type` text a lens row is fuzzily matched against. -/
def lensTreatCombined (r : LensRow) : String :=
  toLowerStr (r.treatment.getD "") ++ " " ++ toLowerStr (r.lens_type.getD "")

/-- The rows surviving the fuzzy material filter (the `filtered` list of the
material post-filter in `search_lens_catalog`). -/
def lensMaterialFiltered (canon : String) (rows : List LensRow) : List LensRow :=
  rows.filter (fun r => fuzzyKeep (material_patterns (some canon)) (lensMatCombined r))

/-- Material post-filter stage: keep `filtered` unless it is empty, in which
case the filter is discarded. -/
def lensMaterialStage (q : LensQuery) (rows : List LensRow) : List LensRow :=
  match normalize_material q.material_hint with
  | none => rows
  | some canon =>
    if canon.data.isEmpty then rows
    else
      let filtered := lensMaterialFiltered canon rows
      if filtered.isEmpty then rows else filtered

/-- The rows surviving the fuzzy treatment filter. -/
def lensTreatmentFiltered (canon : String) (rows : List LensRow) : List LensRow :=
  rows.filter (fun r => fuzzyKeep (treatment_patterns (some canon)) (lensTreatCombined r))

/-- Treatment post-filter stage, with the same discard-if-empty rule. -/
def lensTreatmentStage (q : LensQuery) (rows : List LensRow) : List LensRow :=
  match normalize_treatment q.treatment_hint with
  | none => rows
  | some canon =>
    if canon.data.isEmpty then rows
    else
      let filtered := lensTreatmentFiltered canon rows
      if filtered.isEmpty then rows else filtered

/-- Range containment on one axis: a missing bound passes unconditionally. -/
def passRange (lo hi : Option ℚ) (v : ℚ) : Bool :=
  (match lo with | none => true | some a => decide (a ≤ v)) &&
  (match hi with | none => true | some b => decide (v ≤ b))

/-- Sphere-range post-filter (`if sphere is not None: …`). -/
def filterBySphere (sphere : Option ℚ) (rows : List LensRow) : List LensRow :=
  match sphere with
  | none => rows
  | some s => rows.filter (fun r => passRange r.sphere_min r.sphere_max s)

/-- Cylinder-range post-filter. -/
def filterByCylinder (cylinder : Option ℚ) (rows : List LensRow) : List LensRow :=
  match cylinder with
  | none => rows
  | some s => rows.filter (fun r => passRange r.cylinder_min r.cylinder_max s)

/-- Add-power-range post-filter. -/
def filterByAddPower (add_power : Option ℚ) (rows : List LensRow) : List LensRow :=
  match add_power with
  | none => rows
  | some s => rows.filter (fun r => passRange r.add_min r.add_max s)

/-- All three optical-range post-filters, in source order. -/
def lensRangeStage (q : LensQuery) (rows : List LensRow) : List LensRow :=
  filterByAddPower q.add_power (filterByCylinder q.cylinder (filterBySphere q.sphere rows))

/-- `rows.sort(key=λ r: float(r.get("retail_price", 0) or 0))` — a stable
ascending sort by retail price. -/
def lensSort (rows : List LensRow) : List LensRow :=
  stableSortBy (fun a b => decide ((a.retail_price.getD 0) ≤ (b.retail_price.getD 0))) rows

/-- `search_lens_catalog` (lens_catalog.py): base query, fuzzy
material/treatment post-filters, numeric-range post-filters, price sort,
top 3. -/
def search_lens_catalog (q : LensQuery) (catalog : List LensRow) : List LensRow :=
  let rows := lensBaseRows q catalog
  if rows.isEmpty then []
  else
    let rows := lensMaterialStage q rows
    let rows := lensTreatmentStage q rows
    let rows := lensRangeStage q rows
    (lensSort rows).take 3

/-- One row of the `products` table (columns read by the search);
`ai_tags` JSONB is embedded as its key/value pairs. -/
structure ProdRow where
  id : Option String := none
  name : Option String := none
  description : Option String := none
  brand : Option String := none
  material : Option String := none
  category : Option String := none
  price : Option ℚ := none
  ai_tags : List (String × String) := []
deriving DecidableEq

/-- The keyword arguments of `search_products`. -/
structure ProdQuery where
  description : Option String := none
  brand : Option String := none
  material : Option String := none
  category : Option String := none
deriving DecidableEq

/-- `_flatten_ai_tags`: join the tag values with spaces. -/
def flatten_ai_tags (tags : List (String × String)) : String :=
  String.intercalate " " (tags.map (·.2))

/-- The Supabase query prefix of `search_products`: exact category when
truthy, case-insensitive brand substring when truthy (a row with a null
brand never matches ILIKE). -/
def prodBaseRows (q : ProdQuery) (catalog : List ProdRow) : List ProdRow :=
  let rows := match q.category with
    | some c => if c.data.isEmpty then catalog else catalog.filter (fun r => r.category == some c)
    | none => catalog
  match q.brand with
  | some b =>
    if b.data.isEmpty then rows
    else rows.filter (fun r => match r.brand with
      | some rb => strContains (toLowerStr rb) (toLowerStr b)
      | none => false)
  | none => rows

/-- The searchable text of a product row: name, description, brand,
material and flattened tags, space-joined and lowered. -/
def prodSearchable (r : ProdRow) : String :=
  toLowerStr (String.intercalate " "
    [r.name.getD "", r.description.getD "", r.brand.getD "", r.material.getD "",
     flatten_ai_tags r.ai_tags])

/-- Description-scoring stage of `search_products`: tokenize (words longer
than 2 characters), score rows by matched-token count, keep scored rows,
stable-sort descending, truncate to 3.  Without a description, plain
truncation to 3. -/
def prodScoreStage (q : ProdQuery) (rows : List ProdRow) : List ProdRow :=
  match q.description with
  | some d =>
    if d.data.isEmpty then rows.take 3
    else
      let keywords := ((splitTokens d).filter (fun w => w.data.length > 2)).map toLowerStr
      let scored := rows.filterMap (fun row =>
        let score := (keywords.filter (fun kw => strContains (prodSearchable row) kw)).length
        if score > 0 then some (score, row) else none)
      let sorted := stableSortBy (fun a b => decide (a.1 ≥ b.1)) scored
      (sorted.map (·.2)).take 3
  | none => rows.take 3

/-- The rows surviving the material narrowing of `search_products`. -/
def prodMaterialFiltered (ml : String) (rows : List ProdRow) : List ProdRow :=
  rows.filter (fun r =>
    strContains (toLowerStr (r.material.getD "")) ml ||
    strContains (toLowerStr (flatten_ai_tags r.ai_tags)) ml)

/-- Material narrowing stage of `search_products` (`if material and rows:`),
with the same discard-if-empty rule as the lens search. -/
def prodMaterialStage (q : ProdQuery) (rows : List ProdRow) : List ProdRow :=
  match q.material with
  | some m =>
    if m.data.isEmpty || rows.isEmpty then rows
    else
      let filtered := prodMaterialFiltered (toLowerStr (trimStr m)) rows
      if filtered.isEmpty then rows else filtered
  | none => rows

/-- `search_products` (products.py).  (The source's early `return []` when
the scored set is empty is the same value the remaining stages produce on an
empty set, so the stages compose directly.) -/
def search_products (q : ProdQuery) (catalog : List ProdRow) : List ProdRow :=
  let rows := prodBaseRows q catalog
  if rows.isEmpty then []
  else
    let rows := prodScoreStage q rows
    let rows := prodMaterialStage q rows
    rows.take 3

/-! ## Catalog matcher (`app/agents/catalog_matcher.py`) -/

/-- Result of `_get_rx_values`. -/
structure RxValues where
  sphere : Option ℚ := none
  cylinder : Option ℚ := none
  add_power : Option ℚ := none
deriving DecidableEq

/-- `_get_rx_values`: representative sphere/cylinder/add from the first
prescription, taking per axis the eye with the larger absolute value
(OD first, OS replacing it only on strictly larger magnitude), and the add
power from OD if present else OS. -/
def get_rx_values (vision : VisionOutput) : RxValues :=
  match vision.prescriptions_found with
  | [] => {}
  | p :: _ =>
    match p.rx_data with
    | none => {}
    | some rx =>
      let s0 := rx.od.bind (·.sphere)
      let sphere := match rx.os.bind (·.sphere) with
        | none => s0
        | some v => match s0 with
          | none => some v
          | some w => if |v| > |w| then some v else s0
      let c0 := rx.od.bind (·.cylinder)
      let cylinder := match rx.os.bind (·.cylinder) with
        | none => c0
        | some v => match c0 with
          | none => some v
          | some w => if |v| > |w| then some v else c0
      let add_power := match rx.od.bind (·.add) with
        | some v => some v
        | none => rx.os.bind (·.add)
      { sphere := sphere, cylinder := cylinder, add_power := add_power }

/-- The lens-catalog query `_match_lens` issues for an item. -/
def lensQueryOf (item : ItemRequested) (rxv : RxValues) : LensQuery :=
  { category := item.category, material_hint := item.material_hint,
    treatment_hint := item.treatment_hint, is_digital := item.is_digital,
    sphere := rxv.sphere, cylinder := rxv.cylinder, add_power := rxv.add_power }

/-- `_match_lens`'s placeholder when the lens search yields no rows. -/
def lensNoMatchItem (item : ItemRequested) : MatchedItem :=
  { type := some "lente",
    description := some (pyOrStr item.description "Lente - sin match en catálogo"),
    unit_price := 0, quantity := item.quantity, confidence := 0,
    needs_manual_selection := true, notes := item.notes }

/-- `r["id"]` on an embedded row: raises `KeyError` when the id is absent. -/
def lensRowId (r : LensRow) : Except String String :=
  match r.id with
  | some i => .ok i
  | none => .error "KeyError: 'id'"

/-- `r["id"]` on a product row. -/
def prodRowId (r : ProdRow) : Except String String :=
  match r.id with
  | some i => .ok i
  | none => .error "KeyError: 'id'"

/-- `_match_lens` (catalog_matcher.py).  The `.error` case models the Python
exceptions the per-item `try` of `run_catalog_matcher` catches (the only
fallible operations are the `row["id"]` dict accesses). -/
def match_lens (item : ItemRequested) (rxv : RxValues) (lensCat : List LensRow) :
    Except String MatchedItem :=
  let results := search_lens_catalog (lensQueryOf item rxv) lensCat
  match results with
  | [] => .ok (lensNoMatchItem item)
  | best :: rest => do
    let bestId ← lensRowId best
    let alternatives ← (rest.take 2).mapM (fun r => do
      let rid ← lensRowId r
      pure { lens_catalog_id := some rid, description := some (r.lens_type.getD ""),
             price := r.retail_price.getD 0 : AlternativeMatch })
    let confidence : ℚ := if results.length ≥ 1 then 9/10 else 1/2
    pure { type := some "lente", lens_catalog_id := some bestId, lab_id := best.lab_id,
           description := getOr best.lens_type item.description,
           unit_price := best.retail_price.getD 0,
           lab_cost := some (best.lab_cost.getD 0),
           quantity := item.quantity, confidence := confidence,
           alternatives := alternatives, notes := item.notes }

/-- `_match_product`'s placeholder when the product search yields no rows. -/
def prodNoMatchItem (item : ItemRequested) : MatchedItem :=
  { type := some (pyOrStr item.type "montura"),
    description := some (pyOrStr item.description
      (pyOrStr item.type "Producto" ++ " - Pendiente selección")),
    unit_price := 0, quantity := item.quantity, confidence := 0,
    needs_manual_selection := true, notes := item.notes }

/-- `_match_product` (catalog_matcher.py). -/
def match_product (item : ItemRequested) (prodCat : List ProdRow) :
    Except String MatchedItem :=
  let results := search_products
    { description := item.description, brand := item.brand_hint,
      material := item.material_hint, category := item.type } prodCat
  match results with
  | [] => .ok (prodNoMatchItem item)
  | best :: rest => do
    let bestId ← prodRowId best
    let alternatives ← (rest.take 2).mapM (fun r => do
      let rid ← prodRowId r
      pure { product_id := some rid, description := some (r.name.getD ""),
             price := r.price.getD 0 : AlternativeMatch })
    pure { type := some (pyOrStr item.type "montura"), product_id := some bestId,
           description := getOr best.name item.description,
           unit_price := best.price.getD 0,
           quantity := item.quantity, confidence := 4/5,
           alternatives := alternatives, notes := item.notes }

/-- The body of `run_catalog_matcher`'s per-item `try` block: branch on the
sale type and the item kind. -/
def matchItem (isVD : Bool) (rxv : RxValues) (lensCat : List LensRow)
    (prodCat : List ProdRow) (item : ItemRequested) : Except String MatchedItem :=
  if isVD then match_product item prodCat
  else if item.type == some "lente" then match_lens item rxv lensCat
  else if item.type == some "montura" || item.type == some "accesorio" then
    match_product item prodCat
  else if item.type == some "servicio" then
    .ok { type := some "servicio", description := some (pyOrStr item.description "Servicio"),
          unit_price := 0, quantity := item.quantity,
          needs_manual_selection := true, notes := item.notes }
  else
    .ok { type := some (pyOrStr item.type "otro"),
          description := some (pyOrStr item.description "Item no clasificado"),
          unit_price := 0, quantity := item.quantity,
          needs_manual_selection := true, notes := item.notes }

/-- The zero-price item the per-item `except` branch appends. -/
def matchErrorItem (item : ItemRequested) (e : String) : MatchedItem :=
  { type := some (pyOrStr item.type "otro"),
    description := some (pyOrStr item.description "Item con error de matching"),
    unit_price := 0, quantity := item.quantity,
    needs_manual_selection := true, notes := some ("Error: " ++ e) }

/-- Warning appended when a produced item needs manual selection. -/
def noMatchWarning (item : ItemRequested) : String :=
  "Sin match para " ++ pyStr item.type ++ ": '" ++ pyStr item.description ++
  "' — logística debe asignar"

/-- Warning appended by the per-item `except` branch. -/
def matchErrorWarning (item : ItemRequested) (e : String) : String :=
  "Error al buscar '" ++ pyStr item.description ++ "': " ++ e

/-- The matched item the loop appends for one requested item (the `try`
result, or the error fallback). -/
def resolveItem (isVD : Bool) (rxv : RxValues) (lensCat : List LensRow)
    (prodCat : List ProdRow) (item : ItemRequested) : MatchedItem :=
  match matchItem isVD rxv lensCat prodCat item with
  | .ok m => m
  | .error e => matchErrorItem item e

/-- One iteration of `run_catalog_matcher`'s loop over requested items,
threading (matched, warnings, suggested_lab_id).  The first-match-wins lab
update happens exactly in the successful non-venta-directa lens branch. -/
def matcherStep (isVD : Bool) (rxv : RxValues) (lensCat : List LensRow)
    (prodCat : List ProdRow)
    (st : List MatchedItem × List String × Option String) (item : ItemRequested) :
    List MatchedItem × List String × Option String :=
  match matchItem isVD rxv lensCat prodCat item with
  | .ok m =>
    let lab := if (!isVD && item.type == some "lente")
                  && (strTruthy m.lab_id && !strTruthy st.2.2)
               then m.lab_id else st.2.2
    (st.1 ++ [m],
     st.2.1 ++ (if m.needs_manual_selection then [noMatchWarning item] else []),
     lab)
  | .error e =>
    (st.1 ++ [matchErrorItem item e], st.2.1 ++ [matchErrorWarning item e], st.2.2)

/-- `run_catalog_matcher` (catalog_matcher.py). -/
def run_catalog_matcher (conversation : ConversationOutput) (vision : VisionOutput)
    (lensCat : List LensRow) (prodCat : List ProdRow) : CatalogOutput :=
  let isVD := conversation.suggested_order_type == some "venta_directa"
  if conversation.items_requested.isEmpty then
    { warnings := ["No hay items para buscar en catálogo"] }
  else
    let rxv := if !isVD then get_rx_values vision else {}
    let st := conversation.items_requested.foldl
      (matcherStep isVD rxv lensCat prodCat) ([], [], none)
    { matched_items := st.1, warnings := st.2.1,
      suggested_lab_id := if !isVD then st.2.2 else none }

/-! ## Sale-type inference (`app/agents/conversation_analyzer.py`) -/

/-- `_detect_venta_directa` (conversation_analyzer.py): classify from sale
tags on content-bearing internal notes and the extracted item kinds. -/
def detect_venta_directa (internal_notes : List InternalNote)
    (items : List ItemRequested) : Option String :=
  let content_notes := internal_notes.filter (fun n => strTruthy n.content)
  let tagged_notes := content_notes.filter (fun n => strTruthy n.sale_tag)
  if tagged_notes.isEmpty then none
  else
    let all_tagged := if content_notes.isEmpty then false
      else tagged_notes.length == content_notes.length
    let has_lens := items.any (fun item => item.type == some "lente")
    if all_tagged && !has_lens then some "venta_directa"
    else if has_lens then some "optico"
    else some "optico"

/-! ## Order builder (`app/agents/order_builder.py`) -/

/-- `_build_payment_suggestion` (order_builder.py): merge remission and
conversation payment data, remission method first, then the head
conversation mention's method, then remission free payment text. -/
def build_payment_suggestion (vision : VisionOutput)
    (conversation : ConversationOutput) : Option PaymentSuggestion :=
  match vision.remissions.head? with
  | some remission =>
    if strTruthy remission.payment_method then
      some { method := remission.payment_method,
             type := pyOrStr remission.payment_type "total",
             amount_reference := pyOrQ remission.payment_amount remission.total_amount,
             has_proof := remission.has_proof, source := "remission", proof_url := none }
    else
      match conversation.payment_mentions.head? with
      | some cp =>
        if strTruthy cp.method then
          some { method := cp.method, type := pyOrStr cp.type "total",
                 amount_reference := cp.amount, has_proof := cp.has_proof,
                 source := cp.source, proof_url := cp.proof_url }
        else if strTruthy remission.payment_info then
          some { method := none, type := "total",
                 amount_reference := remission.total_amount,
                 has_proof := false, source := "remission", proof_url := none }
        else none
      | none =>
        if strTruthy remission.payment_info then
          some { method := none, type := "total",
                 amount_reference := remission.total_amount,
                 has_proof := false, source := "remission", proof_url := none }
        else none
  | none =>
    match conversation.payment_mentions.head? with
    | some cp =>
      if strTruthy cp.method then
        some { method := cp.method, type := pyOrStr cp.type "total",
               amount_reference := cp.amount, has_proof := cp.has_proof,
               source := cp.source, proof_url := cp.proof_url }
      else none
    | none => none

/-- Explicit wall-clock values (`time.time()` at pipeline start, `time.time()`
now, `datetime.now(timezone.utc).isoformat()`). -/
structure Clock where
  start : ℚ := 0
  now : ℚ := 0
  nowIso : String := ""
deriving DecidableEq

/-- The order line built from one matched item (`mi.quantity or 1`,
`mi.unit_price or 0`; a plain float `or 0` is the identity). -/
def orderItemOf (mi : MatchedItem) : OrderDraftItem :=
  { description := mi.description,
    quantity := pyOrInt mi.quantity 1,
    unit_price := mi.unit_price,
    subtotal := mi.unit_price * ((pyOrInt mi.quantity 1 : ℤ) : ℚ),
    lens_catalog_id := mi.lens_catalog_id,
    lens_lab_cost := mi.lab_cost,
    product_id := mi.product_id,
    needs_manual_selection := mi.needs_manual_selection }

/-- The order lines of `run_order_builder`. -/
def orderItems (catalog : CatalogOutput) : List OrderDraftItem :=
  catalog.matched_items.map orderItemOf

/-- `total_amount = sum(item.subtotal for item in items)` — catalog prices
only. -/
def catalogTotal (catalog : CatalogOutput) : ℚ :=
  ((orderItems catalog).map (·.subtotal)).sum

/-- The prescription insert built from the first extracted prescription. -/
def buildPrescription (job : AIOrderJob) (vision : VisionOutput) (clock : Clock) :
    Option PrescriptionInsert :=
  match vision.prescriptions_found.head? with
  | none => none
  | some best_rx =>
    some { customer_id := some job.customer_id, rx_data := best_rx.rx_data,
           original_image_url := best_rx.image_url,
           ai_extraction_metadata := some
             { confidence := best_rx.confidence, model := "gemini-2.0-flash",
               warnings := best_rx.warnings, extracted_at := some clock.nowIso } }

/-- The remission-vs-catalog discrepancy warning text. -/
def discrepancyWarning (remTotal catTotal : ℚ) : String :=
  "⚠️ Remisión dice $" ++ moneyStr remTotal ++ " pero catálogo calcula $" ++
  moneyStr catTotal ++ " — verificar"

/-- The urgent-observation warning text. -/
def urgentWarning (observations : Option String) : String :=
  "🔴 URGENTE — observación de remisión: " ++ pyStr observations

/-- The consolidated warning list of `run_order_builder`, in append order
(the urgent remission observation is inserted at the front of everything
accumulated before the discrepancy and payment-proof checks). -/
def orderWarnings (job : AIOrderJob) (vision : VisionOutput)
    (conversation : ConversationOutput) (catalog : CatalogOutput)
    (items : List OrderDraftItem) (total_amount : ℚ)
    (prescription : Option PrescriptionInsert) (remission : Option RemissionData)
    (payment_suggestion : Option PaymentSuggestion) : List String :=
  let w := match vision.prescriptions_found.head? with
    | some best_rx => best_rx.warnings.map (fun s => "Fórmula: " ++ s)
    | none => []
  let w := w ++ conversation.warnings ++ catalog.warnings
  let w := w ++ (if strTruthy vision.error then ["Agente Visión: " ++ pyStr vision.error] else [])
  let w := w ++ (if strTruthy conversation.error then ["Agente Conversación: " ++ pyStr conversation.error] else [])
  let w := w ++ (if strTruthy catalog.error then ["Agente Catálogo: " ++ pyStr catalog.error] else [])
  let w := w ++ (if items.isEmpty then ["No se identificaron productos — pedido vacío requiere revisión manual"] else [])
  let w := w ++ (if total_amount = 0 ∧ ¬items.isEmpty then ["Total $0 — precios pendientes de asignar por logística"] else [])
  let w := w ++ (if prescription.isNone && !job.payload.media_urls.isEmpty then ["Se enviaron imágenes pero no se extrajo fórmula óptica"] else [])
  let w := w ++ (if items.any (·.needs_manual_selection) then ["Uno o más items requieren selección manual por logística"] else [])
  let w := match remission with
    | some rem =>
      (match rem.observations with
       | some obs =>
         if !obs.data.isEmpty && strContains (toUpperStr obs) "URGENTE" then
           urgentWarning rem.observations :: w
         else w
       | none => w)
    | none => w
  let w := match remission with
    | some rem =>
      (match rem.total_amount with
       | some remTotal =>
         if remTotal ≠ 0 ∧ total_amount > 0 ∧ |remTotal - total_amount| > 1000 then
           w ++ [discrepancyWarning remTotal total_amount]
         else w
       | none => w)
    | none => w
  w ++ (match payment_suggestion with
    | some ps => if ps.has_proof then ["📎 Comprobante de pago detectado — requiere verificación"] else []
    | none => [])

/-- The completeness classification of `run_order_builder`. -/
def orderCompleteness (job : AIOrderJob) (items : List OrderDraftItem)
    (total_amount : ℚ) (prescription : Option PrescriptionInsert) : String :=
  let has_items := !items.isEmpty
  let has_prices := decide (total_amount > 0)
  let has_prescription := prescription.isSome
  let no_manual := !items.any (·.needs_manual_selection)
  if has_items && has_prices && no_manual then
    (if has_prescription || job.payload.media_urls.isEmpty then "completo" else "parcial")
  else if has_items then "parcial"
  else "minimo"

/-- `int((time.time() - processing_start) * 1000)` under the truthiness
guard `if processing_start:`. -/
def processingMs (processing_start : Option ℚ) (clock : Clock) : ℤ :=
  match processing_start with
  | some t => if t = 0 then 0 else ratTrunc ((clock.now - t) * 1000)
  | none => 0

/-- `run_order_builder` (order_builder.py): assemble the final order draft
from all agent outputs. -/
def run_order_builder (job : AIOrderJob) (vision : VisionOutput)
    (conversation : ConversationOutput) (catalog : CatalogOutput)
    (agent_errors : Option (List (String × String)))
    (processing_start : Option ℚ) (clock : Clock) : FinalOrderResult :=
  let items := orderItems catalog
  let total_amount := catalogTotal catalog
  let balance_due := total_amount
  let remission := vision.remissions.head?
  let clinical_history := vision.clinical_histories.head?
  let payment_suggestion := build_payment_suggestion vision conversation
  let prescription := buildPrescription job vision clock
  { order_draft :=
      { customer_id := some job.customer_id, sede_id := some job.sede_id,
        seller_id := some job.requested_by, status := "borrador",
        total_amount := total_amount, balance_due := balance_due,
        payment_status := "pendiente", lab_id := catalog.suggested_lab_id,
        promised_date := conversation.promised_date_hint },
    items := items,
    prescription := prescription,
    remission := remission,
    clinical_history := clinical_history,
    frames := vision.frames,
    image_classifications := vision.image_classifications,
    payment_suggestion := payment_suggestion,
    customer_updates := conversation.customer_updates,
    completeness := orderCompleteness job items total_amount prescription,
    warnings := orderWarnings job vision conversation catalog items total_amount
      prescription remission payment_suggestion,
    needs_manual_review := orderCompleteness job items total_amount prescription ≠ "completo",
    processing_time_ms := processingMs processing_start clock,
    agent_errors := agent_errors.getD [] }

/-! ## Pipeline orchestrator (`app/agents/pipeline.py`) -/

/-- The four stage calls of `run_pipeline` as fallible oracles: an `.error e`
models the stage raising an exception whose rendered text is `e`.  The
catalog and builder oracles receive the (possibly fallback) outputs of the
earlier stages exactly as the Python call sites pass them. -/
structure StageOracles where
  vision : Except String VisionOutput
  conversation : Except String ConversationOutput
  catalog : ConversationOutput → VisionOutput → Except String CatalogOutput
  builder : AIOrderJob → VisionOutput → ConversationOutput → CatalogOutput →
    List (String × String) → Option ℚ → Except String FinalOrderResult

/-- Agent 1 wrapper: on failure, record the error and fall back to
`VisionOutput(error=…)`. -/
def pipelineVision (orc : StageOracles) : VisionOutput × List (String × String) :=
  match orc.vision with
  | .ok v => (v, [])
  | .error exc =>
    let msg := "Vision extractor fallo: " ++ exc
    ({ error := some msg }, [("vision_extractor", msg)])

/-- Agent 2 wrapper. -/
def pipelineConversation (orc : StageOracles) (errs : List (String × String)) :
    ConversationOutput × List (String × String) :=
  match orc.conversation with
  | .ok c => (c, errs)
  | .error exc =>
    let msg := "Conversation analyzer fallo: " ++ exc
    ({ error := some msg,
       warnings := ["El analizador de conversación falló — pedido puede estar incompleto"] },
     errs ++ [("conversation_analyzer", msg)])

/-- Agent 3 wrapper. -/
def pipelineCatalog (orc : StageOracles) (conversation : ConversationOutput)
    (vision : VisionOutput) (errs : List (String × String)) :
    CatalogOutput × List (String × String) :=
  match orc.catalog conversation vision with
  | .ok k => (k, errs)
  | .error exc =>
    let msg := "Catalog matcher fallo: " ++ exc
    ({ error := some msg,
       warnings := ["El matcher de catálogo falló — items sin precios ni IDs"] },
     errs ++ [("catalog_matcher", msg)])

/-- The three upstream stages of `run_pipeline`: the vision, conversation and
catalog outputs actually handed downstream, plus the accumulated error map. -/
def pipelineStages (orc : StageOracles) :
    VisionOutput × ConversationOutput × CatalogOutput × List (String × String) :=
  let v := pipelineVision orc
  let c := pipelineConversation orc v.2
  let k := pipelineCatalog orc c.1 v.1 c.2
  (v.1, c.1, k.1, k.2)

/-- The last-resort minimal result of `run_pipeline` when the order builder
itself fails. -/
def pipelineFallbackResult (job : AIOrderJob) (msg : String)
    (errs : List (String × String)) (clock : Clock) : FinalOrderResult :=
  { completeness := "minimo", needs_manual_review := true,
    warnings := ["El constructor de pedido falló — pedido mínimo creado", msg],
    agent_errors := errs,
    processing_time_ms := ratTrunc ((clock.now - clock.start) * 1000),
    order_draft := { customer_id := some job.customer_id, sede_id := some job.sede_id,
                     seller_id := some job.requested_by } }

/-- `run_pipeline` (pipeline.py): the four stages in sequence, each failure
isolated; a builder failure degrades to the minimal fallback result. -/
def run_pipeline (orc : StageOracles) (job : AIOrderJob) (clock : Clock) :
    FinalOrderResult :=
  let s := pipelineStages orc
  match orc.builder job s.1 s.2.1 s.2.2.1 s.2.2.2 (some clock.start) with
  | .ok result => result
  | .error exc =>
    let msg := "Order builder fallo: " ++ exc
    pipelineFallbackResult job msg (s.2.2.2 ++ [("order_builder", msg)]) clock

/-- `StageOracles` whose order-builder stage is the embedded
`run_order_builder` (which, being total, never reaches the pipeline's
last-resort branch). -/
def withRealBuilder (orc : StageOracles) (clock : Clock) : StageOracles :=
  { orc with builder := fun job v c k errs ps =>
      Except.ok (run_order_builder job v c k (some errs) ps clock) }

/-- The payment-suggestion fusion rule as the specification words it
(for comparison with the code's `build_payment_suggestion`): priority (2) is
"the **first PaymentMention that has a resolved method**", i.e. a search of
the whole mention list rather than only its head. -/
def specPaymentSuggestion (vision : VisionOutput)
    (conversation : ConversationOutput) : Option PaymentSuggestion :=
  let firstResolved := conversation.payment_mentions.find? (fun cp => strTruthy cp.method)
  match vision.remissions.head? with
  | some remission =>
    if strTruthy remission.payment_method then
      some { method := remission.payment_method,
             type := pyOrStr remission.payment_type "total",
             amount_reference := pyOrQ remission.payment_amount remission.total_amount,
             has_proof := remission.has_proof, source := "remission", proof_url := none }
    else
      match firstResolved with
      | some cp =>
        some { method := cp.method, type := pyOrStr cp.type "total",
               amount_reference := cp.amount, has_proof := cp.has_proof,
               source := cp.source, proof_url := cp.proof_url }
      | none =>
        if strTruthy remission.payment_info then
          some { method := none, type := "total",
                 amount_reference := remission.total_amount,
                 has_proof := false, source := "remission", proof_url := none }
        else none
  | none =>
    match firstResolved with
    | some cp =>
      some { method := cp.method, type := pyOrStr cp.type "total",
             amount_reference := cp.amount, has_proof := cp.has_proof,
             source := cp.source, proof_url := cp.proof_url }
    | none => none

/-! ## Concrete fixtures for witnesses and counterexamples -/

/-- A minimal job with distinct identifying fields. -/
def jobX : AIOrderJob :=
  { id := "J1", conversation_id := "CV1", customer_id := "CU1", sede_id := "SD1",
    requested_by := "US1" }

/-- A remission declaring a document total of 160000 and nothing else. -/
def remX : RemissionData := { total_amount := some 160000 }

/-- A matched catalog item: 110000 × 2 = 220000. -/
def miX : MatchedItem := { description := some "Lente Blue", unit_price := 110000, quantity := 2 }

/-- A payment mention with an amount but no resolved method. -/
def pmNoMethod : PaymentMention := { amount := some 99999 }

/-- A payment mention with a resolved method. -/
def pmEfectivo : PaymentMention := { method := some "efectivo", amount := some 100000 }

/-- A tagged, content-bearing internal note. -/
def noteTagged : InternalNote := { content := some "venta montura", sale_tag := some "montura" }

/-- A tagged note with no content. -/
def noteEmptyTagged : InternalNote := { content := none, sale_tag := some "montura" }

/-- A lens purchase intent. -/
def itemLens : ItemRequested := { type := some "lente", description := some "progresivos transitions" }

/-- A frame purchase intent. -/
def itemFrame : ItemRequested := { type := some "montura", description := some "montura fina" }

/-- An active lens row with sphere validity [-8, -2]. -/
def rowSphereIn : LensRow := { sphere_min := some (-8), sphere_max := some (-2) }

/-- An active lens row declaring only `sphere_max = -7`. -/
def rowSphereOut : LensRow := { sphere_max := some (-7) }

/-- An active CR lens row (used to empty a polycarbonate fuzzy filter). -/
def rowCR : LensRow :=
  { id := some "L1", material := some "cr", lens_type := some "Monofocal CR Blue",
    treatment := some "blue block", retail_price := some 90000, lab_id := some "LAB1" }

/-- A lens row with a price but no id (its `row["id"]` access raises). -/
def rowNoId : LensRow := { retail_price := some 100000, lab_id := some "LAB1" }

/-- A product row. -/
def prodRowX : ProdRow :=
  { id := some "P1", name := some "Estuche duro", category := some "accesorio",
    material := some "plastico", price := some 20000 }

/-- A remission with a resolved payment method. -/
def remTarjeta : RemissionData :=
  { payment_method := some "tarjeta", payment_type := some "parcial",
    payment_amount := some 50000, total_amount := some 160000, has_proof := true }

/-- A remission with payment free text but no resolved method. -/
def remInfo : RemissionData :=
  { payment_info := some "Pago completo - Datáfono", total_amount := some 160000 }

/-- Stage oracles in which all four stages fail. -/
def orcFail : StageOracles :=
  { vision := .error "boom-v", conversation := .error "boom-c",
    catalog := fun _ _ => .error "boom-k", builder := fun _ _ _ _ _ _ => .error "boom-b" }

/-! ## Helper lemmas -/

theorem length_filter_eq_iff {α : Type _} {p : α → Bool} {l : List α} :
    (l.filter p).length = l.length ↔ ∀ a ∈ l, p a := by
  induction l with
  | nil => simp
  | cons x xs ih =>
    by_cases h : p x
    · simp [List.filter_cons, h, List.forall_mem_cons, ih]
    · have hle := List.length_filter_le p xs
      simp [List.filter_cons, h, List.forall_mem_cons]
      omega

theorem filter_filter_self {α : Type _} (p : α → Bool) (l : List α) :
    (l.filter p).filter p = l.filter p := by
  induction l with
  | nil => rfl
  | cons x xs ih => by_cases h : p x <;> simp [List.filter_cons, h, ih]

theorem isEmpty_true_iff {α : Type _} {l : List α} : l.isEmpty = true ↔ l = [] := by
  cases l <;> simp

theorem isEmpty_false_of_ne_nil {α : Type _} {l : List α} (h : l ≠ []) : l.isEmpty = false := by
  cases l <;> simp_all

theorem passRange_iff (lo hi : Option ℚ) (v : ℚ) :
    passRange lo hi v = true ↔ (∀ a ∈ lo, a ≤ v) ∧ (∀ b ∈ hi, v ≤ b) := by
  cases lo <;> cases hi <;> simp [passRange]

/-! ## Claims -/

/-- Case shape of `_detect_venta_directa`: no tagged content note → no
classification; otherwise `venta_directa` exactly when every content note is
tagged and no lens item exists, else `optico`. -/
theorem detect_venta_directa_eq (notes : List InternalNote) (items : List ItemRequested) :
    detect_venta_directa notes items =
      (if ((notes.filter (fun n => strTruthy n.content)).filter
            (fun n => strTruthy n.sale_tag)).isEmpty then none
       else if ((notes.filter (fun n => strTruthy n.content)).filter
                  (fun n => strTruthy n.sale_tag)).length
                = (notes.filter (fun n => strTruthy n.content)).length
              ∧ items.any (fun i => i.type == some "lente") = false
       then some "venta_directa" else some "optico") := by
  by_cases hT : ((notes.filter (fun n => strTruthy n.content)).filter
      (fun n => strTruthy n.sale_tag)).isEmpty = true
  · simp [detect_venta_directa, hT, -List.filter_filter]
  · have hCne : notes.filter (fun n => strTruthy n.content) ≠ [] := by
      intro hc
      exact hT (by simp [hc])
    have hCE := isEmpty_false_of_ne_nil hCne
    by_cases hl : (items.any fun i => i.type == some "lente") = true
    · simp [detect_venta_directa, hT, hCE, hl, -List.filter_filter]
    · have hlf : (items.any fun i => i.type == some "lente") = false := by
        cases hx : items.any fun i => i.type == some "lente"
        · rfl
        · exact absurd hx hl
      by_cases hlen : ((notes.filter (fun n => strTruthy n.content)).filter
          (fun n => strTruthy n.sale_tag)).length
          = (notes.filter (fun n => strTruthy n.content)).length
      · simp [detect_venta_directa, hT, hCE, hlen, hlf, -List.filter_filter]
      · simp [detect_venta_directa, hT, hCE, hlen, hlf, -List.filter_filter]

/-- **C5.** Sale-type inference: with no tagged content-bearing note no
classification is made; given some tagged content-bearing note, the job is
classified `venta_directa` exactly when all content-bearing notes are tagged
and no `lente` item was extracted, and `optico` in every other such state;
a `lente` item never yields `venta_directa`. -/
theorem sale_type_inference (notes : List InternalNote) (items : List ItemRequested) :
    ((∀ n ∈ notes.filter (fun n => strTruthy n.content), strTruthy n.sale_tag = false) →
      detect_venta_directa notes items = none)
  ∧ ((∃ n ∈ notes.filter (fun n => strTruthy n.content), strTruthy n.sale_tag = true) →
      (((∀ n ∈ notes.filter (fun n => strTruthy n.content), strTruthy n.sale_tag = true) ∧
          items.any (fun i => i.type == some "lente") = false) →
        detect_venta_directa notes items = some "venta_directa")
      ∧ (¬((∀ n ∈ notes.filter (fun n => strTruthy n.content), strTruthy n.sale_tag = true) ∧
          items.any (fun i => i.type == some "lente") = false) →
        detect_venta_directa notes items = some "optico"))
  ∧ (items.any (fun i => i.type == some "lente") = true →
      detect_venta_directa notes items ≠ some "venta_directa") := by
  refine ⟨?_, ?_, ?_⟩
  · intro h
    have ht : (notes.filter (fun n => strTruthy n.content)).filter
        (fun n => strTruthy n.sale_tag) = [] := by
      rw [List.filter_eq_nil_iff]
      intro a ha
      simp [h a ha]
    simp [detect_venta_directa_eq, ht, -List.filter_filter]
  · rintro ⟨n, hn, htag⟩
    have hmem : n ∈ (notes.filter (fun n => strTruthy n.content)).filter
        (fun n => strTruthy n.sale_tag) := List.mem_filter.mpr ⟨hn, htag⟩
    have hne := List.ne_nil_of_mem hmem
    have hTE := isEmpty_false_of_ne_nil hne
    constructor
    · rintro ⟨hall, hlens⟩
      have hTC : (notes.filter (fun n => strTruthy n.content)).filter
          (fun n => strTruthy n.sale_tag) = notes.filter (fun n => strTruthy n.content) :=
        List.filter_eq_self.mpr hall
      simp [detect_venta_directa_eq, hTE, hTC, hlens, -List.filter_filter]
      exact ⟨n, (List.mem_filter.mp hn).1, (List.mem_filter.mp hn).2⟩
    · intro hnall
      by_cases hl : (items.any fun i => i.type == some "lente") = true
      · simp [detect_venta_directa_eq, hTE, hl, -List.filter_filter]
      · have hlf : (items.any fun i => i.type == some "lente") = false := by
          cases hx : items.any fun i => i.type == some "lente"
          · rfl
          · exact absurd hx hl
        have hnotall : ¬∀ n ∈ notes.filter (fun n => strTruthy n.content),
            strTruthy n.sale_tag = true := fun hall => hnall ⟨hall, hlf⟩
        have hlen : ((notes.filter (fun n => strTruthy n.content)).filter
            (fun n => strTruthy n.sale_tag)).length ≠
            (notes.filter (fun n => strTruthy n.content)).length := by
          intro hcon
          exact hnotall (length_filter_eq_iff.mp hcon)
        simp [detect_venta_directa_eq, hTE, hlf, hlen, -List.filter_filter]
  · intro hl
    by_cases hT : ((notes.filter (fun n => strTruthy n.content)).filter
        (fun n => strTruthy n.sale_tag)).isEmpty = true
    · simp [detect_venta_directa_eq, hT, -List.filter_filter]
    · simp [detect_venta_directa_eq, hT, hl, -List.filter_filter]

/-- Witness for C5 at concrete inputs: one tagged content note and a frame
item classify as `venta_directa`; adding a lens item flips to `optico`;
untagged notes give no classification. -/
theorem sale_type_inference_witness :
    detect_venta_directa [noteTagged] [itemFrame] = some "venta_directa"
  ∧ detect_venta_directa [noteTagged] [itemLens] = some "optico"
  ∧ detect_venta_directa [{ content := some "hola" }] [itemLens] = none := by
  refine ⟨?_, ?_, ?_⟩
  · exact ((sale_type_inference [noteTagged] [itemFrame]).2.1 (by decide)).1 (by decide)
  · exact ((sale_type_inference [noteTagged] [itemLens]).2.1 (by decide)).2 (by decide)
  · exact (sale_type_inference [{ content := some "hola" }] [itemLens]).1 (by decide)

/-- **C10.** Sale tags on content-less notes are ignored: the inference only
sees content-bearing notes, and if no note has non-empty content the result
is no classification even when notes carry sale tags. -/
theorem contentless_notes_ignored :
    (∀ (notes : List InternalNote) (items : List ItemRequested),
      detect_venta_directa notes items =
        detect_venta_directa (notes.filter (fun n => strTruthy n.content)) items)
  ∧ (∀ (notes : List InternalNote) (items : List ItemRequested),
      (∀ n ∈ notes, strTruthy n.content = false) →
      detect_venta_directa notes items = none) := by
  constructor
  · intro notes items
    simp only [detect_venta_directa, filter_filter_self]
  · intro notes items h
    have hc : notes.filter (fun n => strTruthy n.content) = [] := by
      rw [List.filter_eq_nil_iff]
      intro a ha
      simp [h a ha]
    simp [detect_venta_directa, hc]

/-- Witness for C10: a tagged but content-less note yields no
classification. -/
theorem contentless_notes_ignored_witness :
    detect_venta_directa [noteEmptyTagged] [itemFrame] = none :=
  contentless_notes_ignored.2 [noteEmptyTagged] [itemFrame] (by decide)

/-- **C7.** The optical-range post-filters of `search_lens_catalog` keep a
row iff each supplied value lies within the row's declared bounds on that
axis, a missing bound passing unconditionally; these filters are exactly
the range stage of the search; in particular a sphere −6.0 query keeps a
row declaring [−8, −2] and drops a row declaring `sphere_max = −7`. -/
theorem lens_range_containment :
    (∀ (s : ℚ) (rows : List LensRow) (r : LensRow),
      r ∈ filterBySphere (some s) rows ↔
        r ∈ rows ∧ (∀ a ∈ r.sphere_min, a ≤ s) ∧ (∀ b ∈ r.sphere_max, s ≤ b))
  ∧ (∀ (s : ℚ) (rows : List LensRow) (r : LensRow),
      r ∈ filterByCylinder (some s) rows ↔
        r ∈ rows ∧ (∀ a ∈ r.cylinder_min, a ≤ s) ∧ (∀ b ∈ r.cylinder_max, s ≤ b))
  ∧ (∀ (s : ℚ) (rows : List LensRow) (r : LensRow),
      r ∈ filterByAddPower (some s) rows ↔
        r ∈ rows ∧ (∀ a ∈ r.add_min, a ≤ s) ∧ (∀ b ∈ r.add_max, s ≤ b))
  ∧ (∀ (q : LensQuery) (rows : List LensRow),
      lensRangeStage q rows =
        filterByAddPower q.add_power (filterByCylinder q.cylinder (filterBySphere q.sphere rows)))
  ∧ search_lens_catalog { sphere := some (-6) } [rowSphereIn] = [rowSphereIn]
  ∧ search_lens_catalog { sphere := some (-6) } [rowSphereOut] = [] := by
  refine ⟨?_, ?_, ?_, fun q rows => rfl, by decide, by decide⟩
  · intro s rows r
    simp [filterBySphere, List.mem_filter, passRange_iff]
  · intro s rows r
    simp [filterByCylinder, List.mem_filter, passRange_iff]
  · intro s rows r
    simp [filterByAddPower, List.mem_filter, passRange_iff]

/-- Witness for C7: the sphere filter applied through the theorem at the
concrete −6.0 query. -/
theorem lens_range_containment_witness :
    rowSphereIn ∈ filterBySphere (some (-6)) [rowSphereIn] :=
  (lens_range_containment.1 (-6) [rowSphereIn] rowSphereIn).mpr
    ⟨by decide, by intro a ha; simp [rowSphereIn] at ha; rw [← ha]; norm_num,
     by intro b hb; simp [rowSphereIn] at hb; rw [← hb]; norm_num⟩

/-- **C4 (counterexample).** The claim's rule (2) — "the suggestion is built
from the first PaymentMention that has a resolved method" — fails on the
code: with no remission and mentions `[no-method, efectivo]`, the code
returns no suggestion (it consults only the head mention) while the claimed
rule returns the `efectivo` suggestion. -/
theorem payment_first_resolved_counterexample :
    build_payment_suggestion {} { payment_mentions := [pmNoMethod, pmEfectivo] } = none
  ∧ specPaymentSuggestion {} { payment_mentions := [pmNoMethod, pmEfectivo] } =
      some { method := some "efectivo", type := "total", amount_reference := some 100000,
             has_proof := false, source := "conversation", proof_url := none }
  ∧ build_payment_suggestion {} { payment_mentions := [pmNoMethod, pmEfectivo] } ≠
      specPaymentSuggestion {} { payment_mentions := [pmNoMethod, pmEfectivo] } := by
  refine ⟨by decide, by decide, by decide⟩

/-- **C4 (amended).** The merged payment suggestion follows strict priority
with only the head conversation mention consulted: (1) a remission with a
resolved payment method wins over every conversation mention; (2) otherwise,
if the first listed PaymentMention has a resolved method the suggestion is
built from it (later mentions are never consulted); (3) otherwise a
remission with payment-related free text yields a method-less suggestion
carrying the remission's declared total; (4) otherwise no suggestion. -/
theorem payment_priority_head_mention (vision : VisionOutput)
    (conversation : ConversationOutput) :
    (∀ rem, vision.remissions.head? = some rem → strTruthy rem.payment_method = true →
      build_payment_suggestion vision conversation =
        some { method := rem.payment_method, type := pyOrStr rem.payment_type "total",
               amount_reference := pyOrQ rem.payment_amount rem.total_amount,
               has_proof := rem.has_proof, source := "remission", proof_url := none })
  ∧ ((∀ rem ∈ vision.remissions.head?, strTruthy rem.payment_method = false) →
      ∀ cp, conversation.payment_mentions.head? = some cp → strTruthy cp.method = true →
      build_payment_suggestion vision conversation =
        some { method := cp.method, type := pyOrStr cp.type "total",
               amount_reference := cp.amount, has_proof := cp.has_proof,
               source := cp.source, proof_url := cp.proof_url })
  ∧ ((∀ cp ∈ conversation.payment_mentions.head?, strTruthy cp.method = false) →
      ∀ rem, vision.remissions.head? = some rem → strTruthy rem.payment_method = false →
      strTruthy rem.payment_info = true →
      build_payment_suggestion vision conversation =
        some { method := none, type := "total", amount_reference := rem.total_amount,
               has_proof := false, source := "remission", proof_url := none })
  ∧ ((∀ rem ∈ vision.remissions.head?,
        strTruthy rem.payment_method = false ∧ strTruthy rem.payment_info = false) →
      (∀ cp ∈ conversation.payment_mentions.head?, strTruthy cp.method = false) →
      build_payment_suggestion vision conversation = none) := by
  refine ⟨?_, ?_, ?_, ?_⟩
  · intro rem hrem hm
    simp [build_payment_suggestion, hrem, hm]
  · intro hnorem cp hcp hm
    cases hrem : vision.remissions.head? with
    | none => simp [build_payment_suggestion, hrem, hcp, hm]
    | some rem =>
      have := hnorem rem (by simp [hrem])
      simp [build_payment_suggestion, hrem, hcp, hm, this]
  · intro hnocp rem hrem hm hinfo
    cases hcp : conversation.payment_mentions.head? with
    | none => simp [build_payment_suggestion, hrem, hcp, hm, hinfo]
    | some cp =>
      have := hnocp cp (by simp [hcp])
      simp [build_payment_suggestion, hrem, hcp, hm, hinfo, this]
  · intro hrems hcps
    cases hrem : vision.remissions.head? with
    | none =>
      cases hcp : conversation.payment_mentions.head? with
      | none => simp [build_payment_suggestion, hrem, hcp]
      | some cp =>
        have := hcps cp (by simp [hcp])
        simp [build_payment_suggestion, hrem, hcp, this]
    | some rem =>
      have hr := hrems rem (by simp [hrem])
      cases hcp : conversation.payment_mentions.head? with
      | none => simp [build_payment_suggestion, hrem, hcp, hr.1, hr.2]
      | some cp =>
        have := hcps cp (by simp [hcp])
        simp [build_payment_suggestion, hrem, hcp, hr.1, hr.2, this]

/-- Witness for C4 (amended): each of the four priorities exercised at a
concrete input. -/
theorem payment_priority_head_mention_witness :
    build_payment_suggestion { remissions := [remTarjeta] } { payment_mentions := [pmEfectivo] } =
      some { method := some "tarjeta", type := "parcial", amount_reference := some 50000,
             has_proof := true, source := "remission", proof_url := none }
  ∧ build_payment_suggestion {} { payment_mentions := [pmEfectivo] } =
      some { method := some "efectivo", type := "total", amount_reference := some 100000,
             has_proof := false, source := "conversation", proof_url := none }
  ∧ build_payment_suggestion { remissions := [remInfo] } {} =
      some { method := none, type := "total", amount_reference := some 160000,
             has_proof := false, source := "remission", proof_url := none }
  ∧ build_payment_suggestion {} {} = none := by
  refine ⟨?_, ?_, ?_, ?_⟩
  · exact (payment_priority_head_mention { remissions := [remTarjeta] }
      { payment_mentions := [pmEfectivo] }).1 remTarjeta rfl (by decide)
  · exact (payment_priority_head_mention {} { payment_mentions := [pmEfectivo] }).2.1
      (by decide) pmEfectivo rfl (by decide)
  · exact (payment_priority_head_mention { remissions := [remInfo] } {}).2.2.1
      (by decide) remInfo rfl (by decide) (by decide)
  · exact (payment_priority_head_mention {} {}).2.2.2 (by decide) (by decide)

/-- **C9.** `balance_due` always equals `total_amount`: in every result of
the order builder (whatever payment suggestion was merged), in every
pipeline run whose builder stage is the real order builder, and in the
pipeline's minimal fallback result. -/
theorem balance_due_equals_total :
    (∀ (job : AIOrderJob) (vision : VisionOutput) (conversation : ConversationOutput)
       (catalog : CatalogOutput) (ae : Option (List (String × String)))
       (ps : Option ℚ) (clock : Clock),
      (run_order_builder job vision conversation catalog ae ps clock).order_draft.balance_due =
        (run_order_builder job vision conversation catalog ae ps clock).order_draft.total_amount)
  ∧ (∀ (orc : StageOracles) (job : AIOrderJob) (clock : Clock),
      (run_pipeline (withRealBuilder orc clock) job clock).order_draft.balance_due =
        (run_pipeline (withRealBuilder orc clock) job clock).order_draft.total_amount)
  ∧ (∀ (orc : StageOracles) (job : AIOrderJob) (clock : Clock) (e : String),
      orc.builder job (pipelineStages orc).1 (pipelineStages orc).2.1
        (pipelineStages orc).2.2.1 (pipelineStages orc).2.2.2 (some clock.start) = .error e →
      (run_pipeline orc job clock).order_draft.balance_due =
        (run_pipeline orc job clock).order_draft.total_amount) := by
  refine ⟨fun _ _ _ _ _ _ _ => rfl, fun orc job clock => rfl, ?_⟩
  intro orc job clock e h
  simp [run_pipeline, h, pipelineFallbackResult]

/-- Witness for C9: the fallback branch at a concrete failing builder. -/
theorem balance_due_equals_total_witness :
    (run_pipeline orcFail jobX {}).order_draft.balance_due =
      (run_pipeline orcFail jobX {}).order_draft.total_amount :=
  balance_due_equals_total.2.2 orcFail jobX {} "boom-b" rfl

/-- **C2 (counterexample).** The discrepancy clause fails as stated: with no
catalog items (catalog total 0) and a remission declaring 160000, the
declared total differs from the catalog total by far more than the 1000
threshold, yet no discrepancy warning is appended (the code also requires
`total_amount > 0`). -/
theorem total_discrepancy_guard_counterexample :
    remX.total_amount = some 160000
  ∧ (run_order_builder jobX { remissions := [remX] } {} {} none none {}).order_draft.total_amount = 0
  ∧ |(160000 : ℚ) - 0| > 1000
  ∧ discrepancyWarning 160000 0 ∉
      (run_order_builder jobX { remissions := [remX] } {} {} none none {}).warnings := by
  refine ⟨rfl, rfl, by norm_num, by decide⟩

/-- **C2 (amended).** `total_amount` is exactly the sum of
`unit_price × quantity` over the produced items, and is a function of the
catalog matches alone (a remission total never changes it); when the
remission declares a nonzero total, the catalog-computed total is positive,
and they differ by more than the fixed 1000 threshold, the discrepancy
warning is appended while `total_amount` keeps the catalog value. -/
theorem order_total_catalog_only (job : AIOrderJob) (vision : VisionOutput)
    (conversation : ConversationOutput) (catalog : CatalogOutput)
    (ae : Option (List (String × String))) (ps : Option ℚ) (clock : Clock) :
    (run_order_builder job vision conversation catalog ae ps clock).order_draft.total_amount =
      ((run_order_builder job vision conversation catalog ae ps clock).items.map
        (fun i => i.unit_price * (i.quantity : ℚ))).sum
  ∧ (run_order_builder job vision conversation catalog ae ps clock).order_draft.total_amount =
      catalogTotal catalog
  ∧ (∀ rem remTotal, vision.remissions.head? = some rem → rem.total_amount = some remTotal →
      remTotal ≠ 0 → catalogTotal catalog > 0 →
      |remTotal - catalogTotal catalog| > 1000 →
      discrepancyWarning remTotal (catalogTotal catalog) ∈
        (run_order_builder job vision conversation catalog ae ps clock).warnings
      ∧ (run_order_builder job vision conversation catalog ae ps clock).order_draft.total_amount =
          catalogTotal catalog) := by
  refine ⟨?_, rfl, ?_⟩
  · show catalogTotal catalog =
      ((orderItems catalog).map (fun i => i.unit_price * (i.quantity : ℚ))).sum
    simp only [catalogTotal, orderItems, List.map_map]
    rfl
  · intro rem remTotal hrem htot h1 h2 h3
    refine ⟨?_, rfl⟩
    show discrepancyWarning remTotal (catalogTotal catalog) ∈
      orderWarnings job vision conversation catalog (orderItems catalog)
        (catalogTotal catalog) (buildPrescription job vision clock)
        (vision.remissions.head?) (build_payment_suggestion vision conversation)
    rw [hrem]
    simp only [orderWarnings, htot]
    rw [if_pos ⟨h1, h2, h3⟩]
    simp [List.mem_append]

/-- Witness for C2 (amended): remission total 160000 against catalog total
220000 (110000 × 2) appends the discrepancy warning and keeps 220000. -/
theorem order_total_catalog_only_witness :
    discrepancyWarning 160000 (catalogTotal { matched_items := [miX] }) ∈
      (run_order_builder jobX { remissions := [remX] } {} { matched_items := [miX] }
        none none {}).warnings
  ∧ (run_order_builder jobX { remissions := [remX] } {} { matched_items := [miX] }
      none none {}).order_draft.total_amount = catalogTotal { matched_items := [miX] } := by
  have htot : catalogTotal { matched_items := [miX] } = 220000 := by
    simp [catalogTotal, orderItems, orderItemOf, pyOrInt, miX]
    norm_num
  exact (order_total_catalog_only jobX { remissions := [remX] } {}
      { matched_items := [miX] } none none {}).2.2 remX 160000 rfl rfl
    (by norm_num) (by rw [htot]; norm_num) (by rw [htot]; norm_num)

/-- Case analysis of the completeness tiers of the order builder. -/
theorem completeness_cases (job : AIOrderJob) (items : List OrderDraftItem)
    (total : ℚ) (p : Option PrescriptionInsert) :
    (orderCompleteness job items total p = "completo" ↔
      (items ≠ [] ∧ total > 0 ∧ items.any (·.needs_manual_selection) = false ∧
       (p.isSome = true ∨ job.payload.media_urls = [])))
  ∧ (orderCompleteness job items total p = "parcial" ↔
      (items ≠ [] ∧ ¬(total > 0 ∧ items.any (·.needs_manual_selection) = false ∧
       (p.isSome = true ∨ job.payload.media_urls = []))))
  ∧ (orderCompleteness job items total p = "minimo" ↔ items = []) := by
  by_cases hi : items = []
  · simp [orderCompleteness, hi]
  · have hie := isEmpty_false_of_ne_nil hi
    by_cases hp : total > 0
    · by_cases hm : items.any (·.needs_manual_selection) = true
      · simp [orderCompleteness, hi, hie, hp, hm]
      · have hmf : items.any (·.needs_manual_selection) = false := by
          cases hx : items.any (·.needs_manual_selection)
          · rfl
          · exact absurd hx hm
        by_cases hq : p.isSome = true ∨ job.payload.media_urls = []
        · rcases hq with hq | hq
          · simp [orderCompleteness, hi, hie, hp, hmf, hq]
          · simp [orderCompleteness, hi, hie, hp, hmf, hq]
        · have hps : p.isSome = false := by
            cases hx : p.isSome
            · rfl
            · exact absurd (Or.inl hx) hq
          have hmu : job.payload.media_urls ≠ [] := fun hx => hq (Or.inr hx)
          have hmue := isEmpty_false_of_ne_nil hmu
          simp [orderCompleteness, hi, hie, hp, hmf, hps, hmu, hmue]
    · simp [orderCompleteness, hi, hie, hp]

/-- **C6.** Completeness tiers: `completo` iff items exist, the total is
positive, no item needs manual selection, and a prescription was extracted
or no images were submitted; `parcial` iff items exist but those conditions
fail; `minimo` iff no items; and `needs_manual_review` holds exactly when
the order is not `completo`. -/
theorem completeness_classification (job : AIOrderJob) (vision : VisionOutput)
    (conversation : ConversationOutput) (catalog : CatalogOutput)
    (ae : Option (List (String × String))) (ps : Option ℚ) (clock : Clock)
    (r : FinalOrderResult)
    (hr : r = run_order_builder job vision conversation catalog ae ps clock) :
    (r.completeness = "completo" ↔
      (r.items ≠ [] ∧ r.order_draft.total_amount > 0 ∧
       (∀ i ∈ r.items, i.needs_manual_selection = false) ∧
       (vision.prescriptions_found ≠ [] ∨ job.payload.media_urls = [])))
  ∧ (r.completeness = "parcial" ↔
      (r.items ≠ [] ∧ ¬(r.order_draft.total_amount > 0 ∧
       (∀ i ∈ r.items, i.needs_manual_selection = false) ∧
       (vision.prescriptions_found ≠ [] ∨ job.payload.media_urls = []))))
  ∧ (r.completeness = "minimo" ↔ r.items = [])
  ∧ (r.needs_manual_review = true ↔ r.completeness ≠ "completo") := by
  subst hr
  have hpre : (buildPrescription job vision clock).isSome = true ↔
      vision.prescriptions_found ≠ [] := by
    cases hv : vision.prescriptions_found <;> simp [buildPrescription, hv]
  have hany : ∀ l : List OrderDraftItem,
      l.any (·.needs_manual_selection) = false ↔
        ∀ i ∈ l, i.needs_manual_selection = false := by
    intro l
    simp [List.any_eq_false]
  have hc := completeness_cases job (orderItems catalog) (catalogTotal catalog)
    (buildPrescription job vision clock)
  refine ⟨?_, ?_, ?_, ?_⟩
  · show orderCompleteness job (orderItems catalog) (catalogTotal catalog)
        (buildPrescription job vision clock) = "completo" ↔ _
    rw [hc.1]
    rw [hany, hpre]
    exact Iff.rfl
  · show orderCompleteness job (orderItems catalog) (catalogTotal catalog)
        (buildPrescription job vision clock) = "parcial" ↔ _
    rw [hc.2.1]
    rw [hany, hpre]
    exact Iff.rfl
  · exact hc.2.2
  · show decide (orderCompleteness job (orderItems catalog) (catalogTotal catalog)
        (buildPrescription job vision clock) ≠ "completo") = true ↔ _
    simp
    exact Iff.rfl

/-- Witness for C6: an empty catalog yields a `minimo`, manual-review
order. -/
theorem completeness_classification_witness :
    (run_order_builder jobX {} {} {} none none {}).completeness = "minimo"
  ∧ (run_order_builder jobX {} {} {} none none {}).needs_manual_review = true := by
  have h := completeness_classification jobX {} {} {} none none {}
    (run_order_builder jobX {} {} {} none none {}) rfl
  exact ⟨h.2.2.1.mpr rfl, h.2.2.2.mpr (by decide)⟩

theorem matcherStep_fst (isVD : Bool) (rxv : RxValues) (lensCat : List LensRow)
    (prodCat : List ProdRow) (st : List MatchedItem × List String × Option String)
    (item : ItemRequested) :
    (matcherStep isVD rxv lensCat prodCat st item).1 =
      st.1 ++ [resolveItem isVD rxv lensCat prodCat item] := by
  cases h : matchItem isVD rxv lensCat prodCat item <;>
    simp [matcherStep, resolveItem, h]

theorem foldl_matcherStep (isVD : Bool) (rxv : RxValues) (lensCat : List LensRow)
    (prodCat : List ProdRow) (items : List ItemRequested) :
    ∀ st : List MatchedItem × List String × Option String,
      (items.foldl (matcherStep isVD rxv lensCat prodCat) st).1 =
        st.1 ++ items.map (resolveItem isVD rxv lensCat prodCat) := by
  induction items with
  | nil => intro st; simp
  | cons x xs ih =>
    intro st
    simp only [List.foldl_cons, List.map_cons]
    rw [ih, matcherStep_fst]
    simp

/-- **C3.** The catalog matcher produces exactly one matched item per
requested item — `matched_items` is the image of `items_requested` under the
per-item resolution, so the lengths always agree; a per-item exception turns
into the zero-price manual-selection item annotated with the error, and a
lens search with no results yields the zero-price manual-selection
placeholder with the raw description preserved. -/
theorem catalog_matcher_one_item_per_request (conversation : ConversationOutput)
    (vision : VisionOutput) (lensCat : List LensRow) (prodCat : List ProdRow) :
    (run_catalog_matcher conversation vision lensCat prodCat).matched_items.length =
      conversation.items_requested.length
  ∧ (run_catalog_matcher conversation vision lensCat prodCat).matched_items =
      conversation.items_requested.map
        (resolveItem (conversation.suggested_order_type == some "venta_directa")
          (if !(conversation.suggested_order_type == some "venta_directa") then
            get_rx_values vision else {}) lensCat prodCat)
  ∧ (∀ (isVD : Bool) (rxv : RxValues) (item : ItemRequested) (e : String),
      matchItem isVD rxv lensCat prodCat item = .error e →
      resolveItem isVD rxv lensCat prodCat item = matchErrorItem item e
      ∧ (matchErrorItem item e).unit_price = 0
      ∧ (matchErrorItem item e).needs_manual_selection = true
      ∧ (matchErrorItem item e).notes = some ("Error: " ++ e))
  ∧ (∀ (rxv : RxValues) (item : ItemRequested),
      item.type = some "lente" →
      search_lens_catalog (lensQueryOf item rxv) lensCat = [] →
      resolveItem false rxv lensCat prodCat item = lensNoMatchItem item
      ∧ (lensNoMatchItem item).unit_price = 0
      ∧ (lensNoMatchItem item).needs_manual_selection = true
      ∧ (∀ d, item.description = some d → d.data.isEmpty = false →
          (lensNoMatchItem item).description = some d)) := by
  have hmap : (run_catalog_matcher conversation vision lensCat prodCat).matched_items =
      conversation.items_requested.map
        (resolveItem (conversation.suggested_order_type == some "venta_directa")
          (if !(conversation.suggested_order_type == some "venta_directa") then
            get_rx_values vision else {}) lensCat prodCat) := by
    by_cases hi : conversation.items_requested.isEmpty = true
    · have hnil := isEmpty_true_iff.mp hi
      simp [run_catalog_matcher, hi, hnil]
    · have hie : conversation.items_requested.isEmpty = false := by
        cases hx : conversation.items_requested.isEmpty
        · rfl
        · exact absurd hx hi
      simp only [run_catalog_matcher, hie, Bool.false_eq_true, if_false]
      rw [foldl_matcherStep]
      simp
  refine ⟨by rw [hmap, List.length_map], hmap, ?_, ?_⟩
  · intro isVD rxv item e h
    exact ⟨by simp [resolveItem, h], rfl, rfl, rfl⟩
  · intro rxv item htype hsearch
    refine ⟨?_, rfl, rfl, ?_⟩
    · simp [resolveItem, matchItem, htype, match_lens, hsearch]
    · intro d hd hde
      simp [lensNoMatchItem, pyOrStr, hd, hde]

/-- Witness for C3: two requested items yield two matched items; a row whose
id access raises yields the error item; an empty lens catalog yields the
placeholder. -/
theorem catalog_matcher_one_item_per_request_witness :
    (run_catalog_matcher { items_requested := [itemLens, itemFrame] } {} [] []).matched_items.length = 2
  ∧ resolveItem false {} [rowNoId] [] itemLens = matchErrorItem itemLens "KeyError: 'id'"
  ∧ resolveItem false {} [] [] itemLens = lensNoMatchItem itemLens := by
  refine ⟨?_, ?_, ?_⟩
  · exact (catalog_matcher_one_item_per_request
      { items_requested := [itemLens, itemFrame] } {} [] []).1
  · exact ((catalog_matcher_one_item_per_request {} {} [rowNoId] []).2.2.1
      false {} itemLens "KeyError: 'id'" rfl).1
  · exact ((catalog_matcher_one_item_per_request {} {} [] []).2.2.2
      {} itemLens rfl rfl).1

/-- **C8.** In both catalog searches, a fuzzy filter that would eliminate
every remaining row is discarded: the search result equals the result of the
same search with that filter absent (lens material, lens treatment, product
material). -/
theorem fuzzy_filter_discard :
    (∀ (q : LensQuery) (catalog : List LensRow),
      ((normalize_material q.material_hint).map
        (fun canon => lensMaterialFiltered canon (lensBaseRows q catalog))).getD [] = [] →
      search_lens_catalog q catalog =
        search_lens_catalog { q with material_hint := none } catalog)
  ∧ (∀ (q : LensQuery) (catalog : List LensRow),
      ((normalize_treatment q.treatment_hint).map
        (fun canon => lensTreatmentFiltered canon
          (lensMaterialStage q (lensBaseRows q catalog)))).getD [] = [] →
      search_lens_catalog q catalog =
        search_lens_catalog { q with treatment_hint := none } catalog)
  ∧ (∀ (q : ProdQuery) (catalog : List ProdRow),
      ((q.material.map (fun m => prodMaterialFiltered (toLowerStr (trimStr m))
        (prodScoreStage q (prodBaseRows q catalog)))).getD [] = []) →
      search_products q catalog =
        search_products { q with material := none } catalog) := by
  refine ⟨?_, ?_, ?_⟩
  · intro q catalog h
    have hbase : lensBaseRows { q with material_hint := none } catalog =
        lensBaseRows q catalog := rfl
    have hL : lensMaterialStage q (lensBaseRows q catalog) = lensBaseRows q catalog := by
      cases hnm : normalize_material q.material_hint with
      | none => simp [lensMaterialStage, hnm]
      | some canon =>
        rw [hnm] at h
        simp at h
        by_cases hc : canon.data.isEmpty
        · simp [lensMaterialStage, hnm, hc]
        · simp [lensMaterialStage, hnm, hc, h]
    have hR : lensMaterialStage { q with material_hint := none }
        (lensBaseRows q catalog) = lensBaseRows q catalog := by
      simp [lensMaterialStage, normalize_material]
    simp only [search_lens_catalog, hbase, hL, hR]
    rfl
  · intro q catalog h
    have hbase : lensBaseRows { q with treatment_hint := none } catalog =
        lensBaseRows q catalog := rfl
    have hmat : lensMaterialStage { q with treatment_hint := none }
        (lensBaseRows q catalog) = lensMaterialStage q (lensBaseRows q catalog) := rfl
    have hL : lensTreatmentStage q (lensMaterialStage q (lensBaseRows q catalog)) =
        lensMaterialStage q (lensBaseRows q catalog) := by
      cases hnt : normalize_treatment q.treatment_hint with
      | none => simp [lensTreatmentStage, hnt]
      | some canon =>
        rw [hnt] at h
        simp at h
        by_cases hc : canon.data.isEmpty
        · simp [lensTreatmentStage, hnt, hc]
        · simp [lensTreatmentStage, hnt, hc, h]
    have hR : lensTreatmentStage { q with treatment_hint := none }
        (lensMaterialStage q (lensBaseRows q catalog)) =
        lensMaterialStage q (lensBaseRows q catalog) := by
      simp [lensTreatmentStage, normalize_treatment]
    simp only [search_lens_catalog, hbase, hmat, hL, hR]
    rfl
  · intro q catalog h
    have hbase : prodBaseRows { q with material := none } catalog =
        prodBaseRows q catalog := rfl
    have hscore : prodScoreStage { q with material := none } (prodBaseRows q catalog) =
        prodScoreStage q (prodBaseRows q catalog) := rfl
    have hL : prodMaterialStage q (prodScoreStage q (prodBaseRows q catalog)) =
        prodScoreStage q (prodBaseRows q catalog) := by
      cases hm : q.material with
      | none => simp [prodMaterialStage, hm]
      | some m =>
        rw [hm] at h
        simp at h
        cases hc : (m.data.isEmpty || (prodScoreStage q (prodBaseRows q catalog)).isEmpty)
        · simp [prodMaterialStage, hm, hc, h]
        · simp [prodMaterialStage, hm, hc]
    have hR : prodMaterialStage { q with material := none }
        (prodScoreStage q (prodBaseRows q catalog)) =
        prodScoreStage q (prodBaseRows q catalog) := by
      simp [prodMaterialStage]
    simp only [search_products, hbase, hscore, hL, hR]

/-- Witness for C8: concrete queries whose fuzzy filters would empty the
candidate set leave the result unchanged. -/
theorem fuzzy_filter_discard_witness :
    search_lens_catalog { material_hint := some "policarbonato" } [rowCR] =
      search_lens_catalog {} [rowCR]
  ∧ search_lens_catalog { treatment_hint := some "fotocromatico" } [rowCR] =
      search_lens_catalog {} [rowCR]
  ∧ search_products { material := some "metal", category := some "accesorio" } [prodRowX] =
      search_products { category := some "accesorio" } [prodRowX] := by
  refine ⟨?_, ?_, ?_⟩
  · exact fuzzy_filter_discard.1 { material_hint := some "policarbonato" } [rowCR] (by decide)
  · exact fuzzy_filter_discard.2.1 { treatment_hint := some "fotocromatico" } [rowCR] (by decide)
  · exact fuzzy_filter_discard.2.2 { material := some "metal", category := some "accesorio" }
      [prodRowX] (by decide)

theorem mem_pipelineConversation_errs (orc : StageOracles)
    (errs : List (String × String)) (x : String × String) (hx : x ∈ errs) :
    x ∈ (pipelineConversation orc errs).2 := by
  cases h : orc.conversation <;> simp [pipelineConversation, h, hx]

theorem mem_pipelineCatalog_errs (orc : StageOracles) (conversation : ConversationOutput)
    (vision : VisionOutput) (errs : List (String × String)) (x : String × String)
    (hx : x ∈ errs) : x ∈ (pipelineCatalog orc conversation vision errs).2 := by
  cases h : orc.catalog conversation vision <;> simp [pipelineCatalog, h, hx]

/-- **C1.** Per-stage failure isolation of `run_pipeline`: a failing stage's
error is recorded under that stage's name in the per-job error map and the
stage's output is replaced by its documented fallback, execution continuing;
a failing order builder yields the minimal fallback result, which still
carries the job's customer/sede/seller identifiers.  (`run_pipeline` is a
total function: it returns a `FinalOrderResult` for every job and every
behaviour of the four stage oracles.) -/
theorem pipeline_failure_isolation (orc : StageOracles) (job : AIOrderJob) (clock : Clock) :
    (∀ e, orc.vision = .error e →
      (pipelineStages orc).1 = { error := some ("Vision extractor fallo: " ++ e) }
      ∧ ("vision_extractor", "Vision extractor fallo: " ++ e) ∈ (pipelineStages orc).2.2.2)
  ∧ (∀ e, orc.conversation = .error e →
      (pipelineStages orc).2.1 =
        { error := some ("Conversation analyzer fallo: " ++ e),
          warnings := ["El analizador de conversación falló — pedido puede estar incompleto"] }
      ∧ ("conversation_analyzer", "Conversation analyzer fallo: " ++ e) ∈
          (pipelineStages orc).2.2.2)
  ∧ (∀ e, orc.catalog (pipelineStages orc).2.1 (pipelineStages orc).1 = .error e →
      (pipelineStages orc).2.2.1 =
        { error := some ("Catalog matcher fallo: " ++ e),
          warnings := ["El matcher de catálogo falló — items sin precios ni IDs"] }
      ∧ ("catalog_matcher", "Catalog matcher fallo: " ++ e) ∈ (pipelineStages orc).2.2.2)
  ∧ (∀ e, orc.builder job (pipelineStages orc).1 (pipelineStages orc).2.1
        (pipelineStages orc).2.2.1 (pipelineStages orc).2.2.2 (some clock.start) = .error e →
      run_pipeline orc job clock =
        pipelineFallbackResult job ("Order builder fallo: " ++ e)
          ((pipelineStages orc).2.2.2 ++
            [("order_builder", "Order builder fallo: " ++ e)]) clock
      ∧ (run_pipeline orc job clock).order_draft.customer_id = some job.customer_id
      ∧ (run_pipeline orc job clock).order_draft.sede_id = some job.sede_id
      ∧ (run_pipeline orc job clock).order_draft.seller_id = some job.requested_by
      ∧ ("order_builder", "Order builder fallo: " ++ e) ∈
          (run_pipeline orc job clock).agent_errors) := by
  refine ⟨?_, ?_, ?_, ?_⟩
  · intro e h
    constructor
    · simp [pipelineStages, pipelineVision, h]
    · exact mem_pipelineCatalog_errs _ _ _ _ _
        (mem_pipelineConversation_errs _ _ _ (by simp [pipelineVision, h]))
  · intro e h
    constructor
    · simp [pipelineStages, pipelineConversation, h]
    · exact mem_pipelineCatalog_errs _ _ _ _ _
        (by simp [pipelineConversation, h])
  · intro e h
    simp only [pipelineStages] at h ⊢
    constructor
    · simp [pipelineCatalog, h]
    · simp [pipelineCatalog, h]
  · intro e h
    simp only [pipelineStages] at h
    have hrun : run_pipeline orc job clock =
        pipelineFallbackResult job ("Order builder fallo: " ++ e)
          ((pipelineStages orc).2.2.2 ++
            [("order_builder", "Order builder fallo: " ++ e)]) clock := by
      simp only [run_pipeline, pipelineStages]
      rw [h]
    refine ⟨hrun, ?_, ?_, ?_, ?_⟩ <;> rw [hrun] <;> simp [pipelineFallbackResult]

/-- Witness for C1: all four stages failing on a concrete job. -/
theorem pipeline_failure_isolation_witness :
    (pipelineStages orcFail).1 = { error := some "Vision extractor fallo: boom-v" }
  ∧ ("vision_extractor", "Vision extractor fallo: boom-v") ∈ (pipelineStages orcFail).2.2.2
  ∧ ("conversation_analyzer", "Conversation analyzer fallo: boom-c") ∈ (pipelineStages orcFail).2.2.2
  ∧ ("catalog_matcher", "Catalog matcher fallo: boom-k") ∈ (pipelineStages orcFail).2.2.2
  ∧ (run_pipeline orcFail jobX {}).order_draft.customer_id = some "CU1"
  ∧ (run_pipeline orcFail jobX {}).order_draft.sede_id = some "SD1"
  ∧ (run_pipeline orcFail jobX {}).order_draft.seller_id = some "US1"
  ∧ ("order_builder", "Order builder fallo: boom-b") ∈ (run_pipeline orcFail jobX {}).agent_errors := by
  have h := pipeline_failure_isolation orcFail jobX {}
  exact ⟨(h.1 "boom-v" rfl).1, (h.1 "boom-v" rfl).2, (h.2.1 "boom-c" rfl).2,
    (h.2.2.1 "boom-k" rfl).2, (h.2.2.2 "boom-b" rfl).2.1, (h.2.2.2 "boom-b" rfl).2.2.1,
    (h.2.2.2 "boom-b" rfl).2.2.2.1, (h.2.2.2 "boom-b" rfl).2.2.2.2⟩

end PuntoGafas
